import Mathlib

/-!
Shallow embedding of `src/object_detection_efficientdet/tf_example_decoder.py`:
the `TfExampleDecoder` class, which decodes one parsed TensorFlow Example
record (encoded image bytes, bounding boxes, classes, areas, crowd flags,
optional masks and pseudo scores) into a dictionary of output tensors.

Modelling choices:
* Variable-length float32 tensors are modelled as `List Rat`, int64 tensors as
  `List Int`, string tensors as `String` or `List Nat` (bytes).
* The graph-mode `tf.cond` / `tf.where` branches are modelled as eager
  conditionals on one record, following the record-at-a-time semantics of
  `decode`.
* `tf.io.decode_image` and `tf.io.decode_png` are external library decoders;
  the embedding takes them as explicit function arguments
  (`decode_image : List Nat → Option Image`,
   `decode_png : List Nat → Option (List (List Rat))`), `none` meaning the
  bytes are not a decodable raster image.
* Runtime failures of the TF ops are modelled by `Except DecodeError`:
  `tf.stack` over box coordinate lists of unequal lengths fails
  (`validationError`); undecodable image or mask bytes fail
  (`imageDecodeError`).
-/

namespace TfExample

/-- A decoded image: `tf.io.decode_image(..., channels=3)` yields a tensor of
shape `[height, width, 3]`; only the shape is relevant to the decoder. -/
structure Image where
  height : Nat
  width : Nat
  channels : Nat
  deriving Repr, DecidableEq

/-- The three construction-time flags of `TfExampleDecoder.__init__`. -/
structure Config where
  include_mask : Bool
  regenerate_source_id : Bool
  activate_pseudo_score : Bool
  deriving Repr, DecidableEq

/-- The densified result of `tf.io.parse_single_example` plus the
sparse-to-dense loop at the top of `decode`: every variable-length feature is
an explicit list, every fixed-length feature a scalar with its schema default
(`source_id` defaults to `""`, `height`/`width` default to `-1`). -/
structure ParsedTensors where
  image_encoded : List Nat
  image_source_id : String
  image_height : Int
  image_width : Int
  bbox_xmin : List Rat
  bbox_xmax : List Rat
  bbox_ymin : List Rat
  bbox_ymax : List Rat
  class_label : List Int
  area : List Rat
  is_crowd : List Int
  pseudo_score : List Rat
  mask : List (List Nat)
  deriving Repr, DecidableEq

/-- Errors a single-record decode can surface at TF runtime. -/
inductive DecodeError where
  | validationError
  | imageDecodeError
  deriving Repr, DecidableEq

/-- Modelled from the spec: `tf.strings.to_hash_bucket_fast` is an external
TensorFlow library op (FarmHash based) whose algorithm is not part of this
repository; the spec fixes only that it is a deterministic map from arbitrary
bytes to a bucket in `[0, numBuckets)`. We model it as a deterministic
polynomial byte hash reduced modulo the bucket count. -/
def to_hash_bucket_fast (bytes : List Nat) (numBuckets : Nat) : Nat :=
  (bytes.foldl (fun h b => h * 131 + b) 5381) % numBuckets

/-- Source model of `_get_source_id_from_encoded_image`: hashes the encoded image bytes into
`2^63 - 1` buckets and renders the bucket as a decimal string
(`tf.strings.as_string`). -/
def get_source_id_from_encoded_image (image_encoded : List Nat) : String :=
  Nat.repr (to_hash_bucket_fast image_encoded (2 ^ 63 - 1))

/-- Source model of `TfExampleDecoder._decode_boxes`: `tf.stack([ymin, xmin, ymax, xmax],
axis=-1)`. Stacking 1-D tensors along the last axis requires all four to have
the same length; otherwise TF raises at runtime (modelled as `none`). -/
def decode_boxes (pt : ParsedTensors) : Option (List (List Rat)) :=
  if pt.bbox_xmin.length = pt.bbox_xmax.length ∧
     pt.bbox_xmin.length = pt.bbox_ymin.length ∧
     pt.bbox_xmin.length = pt.bbox_ymax.length then
    some ((List.range pt.bbox_xmin.length).map (fun i =>
      [pt.bbox_ymin.getD i 0, pt.bbox_xmin.getD i 0,
       pt.bbox_ymax.getD i 0, pt.bbox_xmax.getD i 0]))
  else
    none

/-- Source model of `TfExampleDecoder._decode_areas`: if the area list is non-empty it is used
as is; otherwise areas are computed element-wise as
`(xmax - xmin) * (ymax - ymin)`. -/
def decode_areas (pt : ParsedTensors) : List Rat :=
  if 0 < pt.area.length then
    pt.area
  else
    List.zipWith (fun a b => a * b)
      (List.zipWith (fun a b => a - b) pt.bbox_xmax pt.bbox_xmin)
      (List.zipWith (fun a b => a - b) pt.bbox_ymax pt.bbox_ymin)

/-- The `groundtruth_instance_masks` tensor: either the empty
`tf.zeros([0, height, width])` or the stack produced by `tf.map_fn` over the
decoded PNG masks. -/
inductive MaskTensor where
  | emptyMasks (height width : Int)
  | stacked (ms : List (List (List Rat)))
  deriving Repr, DecidableEq

/-- Shape of a `MaskTensor` as a 3-element list, as `tf.shape` would report. -/
def MaskTensor.shape : MaskTensor → List Int
  | .emptyMasks h w => [0, h, w]
  | .stacked ms =>
      [(ms.length : Int), ((ms.headD []).length : Int),
       (((ms.headD []).headD []).length : Int)]

/-- Source model of `TfExampleDecoder._decode_masks`: if the mask list is non-empty, decode
every PNG to a single-channel float mask (all must decode, else the record
fails); otherwise produce `tf.zeros([0, height, width])` with the record's
height/width as found in `parsed_tensors` at call time. -/
def decode_masks (decode_png : List Nat → Option (List (List Rat)))
    (height width : Int) (masks : List (List Nat)) :
    Except DecodeError MaskTensor :=
  if 0 < masks.length then
    match masks.mapM decode_png with
    | some ms => Except.ok (MaskTensor.stacked ms)
    | none => Except.error DecodeError.imageDecodeError
  else
    Except.ok (MaskTensor.emptyMasks height width)

/-- Lines 157-165 of the source: `decode_image_shape = (height == -1) or
(width == -1)`; `height = tf.where(decode_image_shape, image_shape[0],
height)`. The one condition feeds both `tf.where` calls. -/
def resolvedHeight (pt : ParsedTensors) (image : Image) : Int :=
  if pt.image_height = -1 ∨ pt.image_width = -1 then (image.height : Int)
  else pt.image_height

/-- Lines 157-168 of the source: `width = tf.where(decode_image_shape,
image_shape[1], width)`, with the same shared condition as for height. -/
def resolvedWidth (pt : ParsedTensors) (image : Image) : Int :=
  if pt.image_height = -1 ∨ pt.image_width = -1 then (image.width : Int)
  else pt.image_width

/-- Lines 170-176 of the source: if the is_crowd list is non-empty, cast each
int64 to bool (`tf.cast`); otherwise `tf.zeros_like(class_label)` as bool,
i.e. an all-false list of the class-label list's length. -/
def resolveIsCrowd (is_crowd : List Int) (class_label : List Int) : List Bool :=
  if 0 < is_crowd.length then is_crowd.map (fun i => i != 0)
  else class_label.map (fun _ => false)

/-- Lines 177-184 of the source: the source-id policy. -/
def resolveSourceId (regenerate_source_id : Bool) (image_encoded : List Nat)
    (stored_source_id : String) : String :=
  if regenerate_source_id then
    get_source_id_from_encoded_image image_encoded
  else if 0 < stored_source_id.length then
    stored_source_id
  else
    get_source_id_from_encoded_image image_encoded

/-- The output dictionary of `decode` (lines 188-211). Optional entries of the
python dict are modelled as `Option` fields: `none` means the key is absent. -/
structure DecodedExample where
  image : Image
  source_id : String
  height : Int
  width : Int
  groundtruth_classes : List Int
  groundtruth_is_crowd : List Bool
  groundtruth_area : List Rat
  groundtruth_boxes : List (List Rat)
  groundtruth_pseudo_score : Option (List Rat)
  groundtruth_instance_masks : Option MaskTensor
  groundtruth_instance_masks_png : Option (List (List Nat))
  deriving Repr, DecidableEq

/-- The final dictionary assembly of `decode` (lines 188-211): a pure merge of
the already-computed pieces, adding `groundtruth_pseudo_score` iff
`activate_pseudo_score` and the two mask entries iff `include_mask`. -/
def buildExample (cfg : Config) (pt : ParsedTensors) (image : Image)
    (boxes : List (List Rat)) (masks : Option MaskTensor) : DecodedExample :=
  { image := image
    source_id := resolveSourceId cfg.regenerate_source_id pt.image_encoded
      pt.image_source_id
    height := resolvedHeight pt image
    width := resolvedWidth pt image
    groundtruth_classes := pt.class_label
    groundtruth_is_crowd := resolveIsCrowd pt.is_crowd pt.class_label
    groundtruth_area := decode_areas pt
    groundtruth_boxes := boxes
    groundtruth_pseudo_score :=
      if cfg.activate_pseudo_score then some pt.pseudo_score else none
    groundtruth_instance_masks := masks
    groundtruth_instance_masks_png :=
      if cfg.include_mask then some pt.mask else none }

/-- Source model of `TfExampleDecoder.decode` on one densified record, with the graph-mode
conditionals evaluated eagerly. `decode_image` and `decode_png` are the
external raster decoders. -/
def decode (cfg : Config) (decode_image : List Nat → Option Image)
    (decode_png : List Nat → Option (List (List Rat)))
    (pt : ParsedTensors) : Except DecodeError DecodedExample :=
  match decode_image pt.image_encoded with
  | none => Except.error DecodeError.imageDecodeError
  | some image =>
    match decode_boxes pt with
    | none => Except.error DecodeError.validationError
    | some boxes =>
      if cfg.include_mask then
        match decode_masks decode_png (resolvedHeight pt image)
            (resolvedWidth pt image) pt.mask with
        | Except.error e => Except.error e
        | Except.ok masks =>
            Except.ok (buildExample cfg pt image boxes (some masks))
      else
        Except.ok (buildExample cfg pt image boxes none)

/-! ### Concrete instances used to evaluate the model on closed inputs -/

/-- A concrete 480x640 RGB image, standing for the result of
`tf.io.decode_image` on some fixed bytes. -/
def img480 : Image := { height := 480, width := 640, channels := 3 }

/-- A toy external image decoder that decodes any byte string to `img480`. -/
def dImgConst : List Nat → Option Image := fun _ => some img480

/-- A toy external PNG mask decoder that rejects every byte string. -/
def dPngNone : List Nat → Option (List (List Rat)) := fun _ => none

/-- Configuration with all three flags off. -/
def cfgPlain : Config :=
  { include_mask := false, regenerate_source_id := false,
    activate_pseudo_score := false }

/-- Configuration with `include_mask = true`. -/
def cfgMask : Config :=
  { include_mask := true, regenerate_source_id := false,
    activate_pseudo_score := false }

/-- Configuration with `regenerate_source_id = true`. -/
def cfgRegen : Config :=
  { include_mask := false, regenerate_source_id := true,
    activate_pseudo_score := false }

/-- Configuration with `activate_pseudo_score = true`. -/
def cfgPseudo : Config :=
  { include_mask := false, regenerate_source_id := false,
    activate_pseudo_score := true }

/-- A baseline record: image bytes "abc", stored source id "id7", declared
size 100x200, no objects. -/
def basePt : ParsedTensors :=
  { image_encoded := [97, 98, 99], image_source_id := "id7",
    image_height := 100, image_width := 200,
    bbox_xmin := [], bbox_xmax := [], bbox_ymin := [], bbox_ymax := [],
    class_label := [], area := [], is_crowd := [], pseudo_score := [],
    mask := [] }

/-- Record with declared height `-1` but declared width `200` (not `-1`). -/
def ptHeightOnly : ParsedTensors := { basePt with image_height := -1 }

/-- Record with two boxes, two class labels, empty area and is_crowd lists. -/
def ptTwoBoxes : ParsedTensors :=
  { basePt with
    bbox_xmin := [1/10, 2/10], bbox_xmax := [5/10, 6/10],
    bbox_ymin := [1/10, 2/10], bbox_ymax := [5/10, 6/10],
    class_label := [1, 2] }

/-- Record with one box but an area list of length 2. -/
def ptAreaMismatch : ParsedTensors :=
  { basePt with
    bbox_xmin := [0], bbox_xmax := [1], bbox_ymin := [0], bbox_ymax := [1],
    area := [1, 2] }

/-- Record with two boxes but three class labels and empty is_crowd list. -/
def ptLabelMismatch : ParsedTensors :=
  { basePt with
    bbox_xmin := [0, 0], bbox_xmax := [1, 1],
    bbox_ymin := [0, 0], bbox_ymax := [1, 1],
    class_label := [1, 2, 3] }

/-- Record with the same image bytes as `basePt` but different other fields. -/
def ptOtherFields : ParsedTensors :=
  { basePt with
    image_source_id := "zzz", image_height := 7,
    class_label := [5], is_crowd := [1],
    bbox_xmin := [0], bbox_xmax := [1], bbox_ymin := [0], bbox_ymax := [1] }

/-- Record with declared size 50x60 and an empty mask list. -/
def ptMask5060 : ParsedTensors :=
  { basePt with image_height := 50, image_width := 60 }

/-- Record with a pseudo-score list of length 5 and no boxes. -/
def ptPseudo5 : ParsedTensors :=
  { basePt with pseudo_score := [1, 2, 3, 4, 5] }

deriving instance DecidableEq for Except

/-- The output value of a successful `decode` on a concrete record, used to
instantiate the theorems below on closed inputs (the fallback value is never
relevant: it is only reached when `decode` fails). -/
def okOutput (cfg : Config) (dI : List Nat → Option Image)
    (dP : List Nat → Option (List (List Rat))) (pt : ParsedTensors) :
    DecodedExample :=
  (decode cfg dI dP pt).toOption.getD (buildExample cfg pt img480 [] none)

/-! ### Helper lemmas -/

theorem getD_range_map {α : Type} (f : Nat → α) (n i : Nat) (d : α)
    (h : i < n) : ((List.range n).map f).getD i d = f i := by
  simp [List.getD_eq_getElem?_getD, List.getElem?_map, List.getElem?_range h]

theorem getElem?_eq_some_getD {α : Type} (l : List α) (i : Nat) (d : α)
    (h : i < l.length) : l[i]? = some (l.getD i d) := by
  simp [List.getD_eq_getElem?_getD, List.getElem?_eq_getElem h]

theorem getD_zipWith {α β γ : Type} (f : α → β → γ) (l1 : List α)
    (l2 : List β) (i : Nat) (d1 : α) (d2 : β) (d3 : γ)
    (h1 : i < l1.length) (h2 : i < l2.length) :
    (List.zipWith f l1 l2).getD i d3 = f (l1.getD i d1) (l2.getD i d2) := by
  rw [List.getD_eq_getElem?_getD, List.getElem?_zipWith,
      getElem?_eq_some_getD l1 i d1 h1, getElem?_eq_some_getD l2 i d2 h2]
  rfl

/-- Inversion principle for a successful `decode`: it exposes the decoded
image, the stacked boxes, and the fact that the output is `buildExample`
applied to them, with mask information present exactly when `include_mask`. -/
theorem decode_ok_elim (cfg : Config) (dI : List Nat → Option Image)
    (dP : List Nat → Option (List (List Rat))) (pt : ParsedTensors)
    (ex : DecodedExample) (hok : decode cfg dI dP pt = Except.ok ex) :
    ∃ image boxes,
      dI pt.image_encoded = some image ∧
      decode_boxes pt = some boxes ∧
      ((cfg.include_mask = true ∧ ∃ mt,
          decode_masks dP (resolvedHeight pt image) (resolvedWidth pt image)
            pt.mask = Except.ok mt ∧
          ex = buildExample cfg pt image boxes (some mt)) ∨
       (cfg.include_mask = false ∧
          ex = buildExample cfg pt image boxes none)) := by
  unfold decode at hok
  cases hI : dI pt.image_encoded with
  | none => rw [hI] at hok; exact absurd hok (by simp)
  | some image =>
    rw [hI] at hok
    cases hB : decode_boxes pt with
    | none => rw [hB] at hok; exact absurd hok (by simp)
    | some boxes =>
      rw [hB] at hok
      refine ⟨image, boxes, rfl, rfl, ?_⟩
      cases hM : cfg.include_mask with
      | true =>
        rw [hM] at hok
        simp only [if_true] at hok
        cases hDM : decode_masks dP (resolvedHeight pt image)
            (resolvedWidth pt image) pt.mask with
        | error e => rw [hDM] at hok; exact absurd hok (by simp)
        | ok mt =>
          rw [hDM] at hok
          exact Or.inl ⟨rfl, mt, rfl, (Except.ok.inj hok).symm⟩
      | false =>
        rw [hM] at hok
        simp only [Bool.false_eq_true, if_false] at hok
        exact Or.inr ⟨rfl, (Except.ok.inj hok).symm⟩

/-! ### C1: declared-vs-actual height/width substitution -/

/-- C1 counterexample: the claim says the output width equals the declared
width whenever the declared width is not `-1`, regardless of the other
dimension. On a record with declared height `-1` and declared width `200`,
`decode` outputs width `640` (the actual decoded width), not `200`: the one
`decode_image_shape` condition feeds both `tf.where` substitutions. -/
theorem width_not_independent_cx :
    ptHeightOnly.image_width = 200 ∧ (200 : Int) ≠ -1 ∧
    (decode cfgPlain dImgConst dPngNone ptHeightOnly).map (fun e => e.width) =
      Except.ok 640 ∧
    (640 : Int) ≠ 200 := by
  refine ⟨rfl, by decide, by decide, by decide⟩

/-- C1 (amended): the two dimensions are substituted jointly, not
independently: if either declared dimension equals `-1`, both output
dimensions are replaced by the actual decoded image dimensions; if neither
is `-1`, both declared values are used verbatim. -/
theorem height_width_substitution (cfg : Config)
    (dI : List Nat → Option Image) (dP : List Nat → Option (List (List Rat)))
    (pt : ParsedTensors) (image : Image) (ex : DecodedExample)
    (hI : dI pt.image_encoded = some image)
    (hok : decode cfg dI dP pt = Except.ok ex) :
    (ex.height, ex.width) =
      if pt.image_height = -1 ∨ pt.image_width = -1
      then ((image.height : Int), (image.width : Int))
      else (pt.image_height, pt.image_width) := by
  obtain ⟨img0, boxes, hI', hB, hrest⟩ := decode_ok_elim cfg dI dP pt ex hok
  rw [hI] at hI'
  rw [← Option.some.inj hI'] at hrest
  have hex : ∃ m, ex = buildExample cfg pt image boxes m := by
    rcases hrest with ⟨_, mt, _, hx⟩ | ⟨_, hx⟩
    · exact ⟨some mt, hx⟩
    · exact ⟨none, hx⟩
  obtain ⟨m, hex⟩ := hex
  subst hex
  by_cases hc : pt.image_height = -1 ∨ pt.image_width = -1
  · simp [buildExample, resolvedHeight, resolvedWidth, hc]
  · simp [buildExample, resolvedHeight, resolvedWidth, hc]

/-- Witness for C1's amended theorem at a concrete record. -/
theorem height_width_substitution_witness :
    dImgConst ptHeightOnly.image_encoded = some img480 ∧
    decode cfgPlain dImgConst dPngNone ptHeightOnly =
      Except.ok (okOutput cfgPlain dImgConst dPngNone ptHeightOnly) ∧
    ((okOutput cfgPlain dImgConst dPngNone ptHeightOnly).height,
     (okOutput cfgPlain dImgConst dPngNone ptHeightOnly).width) =
      (if ptHeightOnly.image_height = -1 ∨ ptHeightOnly.image_width = -1
       then ((img480.height : Int), (img480.width : Int))
       else (ptHeightOnly.image_height, ptHeightOnly.image_width)) :=
  ⟨by decide, by decide,
   height_width_substitution cfgPlain dImgConst dPngNone ptHeightOnly img480
     (okOutput cfgPlain dImgConst dPngNone ptHeightOnly)
     (by decide) (by decide)⟩

/-! ### C2: box tuple order -/

/-- C2: for every record whose four box-coordinate lists have equal length
`n`, the output boxes list has length `n` and its `i`-th entry is exactly
`[ymin[i], xmin[i], ymax[i], xmax[i]]` for every `i < n`. -/
theorem boxes_order (cfg : Config) (dI : List Nat → Option Image)
    (dP : List Nat → Option (List (List Rat))) (pt : ParsedTensors)
    (ex : DecodedExample) (n : Nat)
    (hx : pt.bbox_xmin.length = n) (hX : pt.bbox_xmax.length = n)
    (hy : pt.bbox_ymin.length = n) (hY : pt.bbox_ymax.length = n)
    (hok : decode cfg dI dP pt = Except.ok ex) :
    ex.groundtruth_boxes.length = n ∧
    ∀ i, i < n →
      ex.groundtruth_boxes.getD i [] =
        [pt.bbox_ymin.getD i 0, pt.bbox_xmin.getD i 0,
         pt.bbox_ymax.getD i 0, pt.bbox_xmax.getD i 0] := by
  obtain ⟨image, boxes, hI, hB, hrest⟩ := decode_ok_elim cfg dI dP pt ex hok
  have hex : ∃ m, ex = buildExample cfg pt image boxes m := by
    rcases hrest with ⟨_, mt, _, hx'⟩ | ⟨_, hx'⟩
    · exact ⟨some mt, hx'⟩
    · exact ⟨none, hx'⟩
  obtain ⟨m, hex⟩ := hex
  subst hex
  unfold decode_boxes at hB
  rw [if_pos ⟨by omega, by omega, by omega⟩] at hB
  have hbx : (buildExample cfg pt image boxes m).groundtruth_boxes = boxes :=
    rfl
  rw [hbx, ← Option.some.inj hB]
  constructor
  · simp [hx]
  · intro i hi
    have hi' : i < pt.bbox_xmin.length := by omega
    rw [getD_range_map _ _ _ _ hi']

/-- Witness for C2 at a record with two boxes. -/
theorem boxes_order_witness :
    decode cfgPlain dImgConst dPngNone ptTwoBoxes =
      Except.ok (okOutput cfgPlain dImgConst dPngNone ptTwoBoxes) ∧
    (okOutput cfgPlain dImgConst dPngNone ptTwoBoxes).groundtruth_boxes.length
      = 2 ∧
    (okOutput cfgPlain dImgConst dPngNone
        ptTwoBoxes).groundtruth_boxes.getD 1 [] =
      [ptTwoBoxes.bbox_ymin.getD 1 0, ptTwoBoxes.bbox_xmin.getD 1 0,
       ptTwoBoxes.bbox_ymax.getD 1 0, ptTwoBoxes.bbox_xmax.getD 1 0] :=
  ⟨rfl,
   (boxes_order cfgPlain dImgConst dPngNone ptTwoBoxes
     (okOutput cfgPlain dImgConst dPngNone ptTwoBoxes) 2
     (by decide) (by decide) (by decide) (by decide) rfl).1,
   (boxes_order cfgPlain dImgConst dPngNone ptTwoBoxes
     (okOutput cfgPlain dImgConst dPngNone ptTwoBoxes) 2
     (by decide) (by decide) (by decide) (by decide) rfl).2 1
     (by decide)⟩

/-! ### C3: source-id policy -/

/-- C3: the source id follows the three-branch priority policy: with
`regenerate_source_id` the hash-derived decimal string is always used;
otherwise a non-empty stored id is used verbatim; otherwise the hash-derived
string; and the hash bucket lies in `[0, 2^63 - 1)`. -/
theorem source_id_policy (cfg : Config) (dI : List Nat → Option Image)
    (dP : List Nat → Option (List (List Rat))) (pt : ParsedTensors)
    (ex : DecodedExample) (hok : decode cfg dI dP pt = Except.ok ex) :
    (cfg.regenerate_source_id = true →
      ex.source_id =
        Nat.repr (to_hash_bucket_fast pt.image_encoded (2 ^ 63 - 1))) ∧
    (cfg.regenerate_source_id = false → 0 < pt.image_source_id.length →
      ex.source_id = pt.image_source_id) ∧
    (cfg.regenerate_source_id = false → pt.image_source_id.length = 0 →
      ex.source_id =
        Nat.repr (to_hash_bucket_fast pt.image_encoded (2 ^ 63 - 1))) ∧
    to_hash_bucket_fast pt.image_encoded (2 ^ 63 - 1) < 2 ^ 63 - 1 := by
  obtain ⟨image, boxes, hI, hB, hrest⟩ := decode_ok_elim cfg dI dP pt ex hok
  have hex : ∃ m, ex = buildExample cfg pt image boxes m := by
    rcases hrest with ⟨_, mt, _, hx'⟩ | ⟨_, hx'⟩
    · exact ⟨some mt, hx'⟩
    · exact ⟨none, hx'⟩
  obtain ⟨m, hex⟩ := hex
  subst hex
  refine ⟨?_, ?_, ?_, ?_⟩
  · intro hr
    simp [buildExample, resolveSourceId, get_source_id_from_encoded_image, hr]
  · intro hr hlen
    simp [buildExample, resolveSourceId, hr, hlen]
  · intro hr hlen
    simp [buildExample, resolveSourceId, get_source_id_from_encoded_image,
      hr, hlen]
  · exact Nat.mod_lt _ (by norm_num)

/-- Witness for C3 at a concrete record with a non-empty stored id. -/
theorem source_id_policy_witness :
    decode cfgPlain dImgConst dPngNone basePt =
      Except.ok (okOutput cfgPlain dImgConst dPngNone basePt) ∧
    ((cfgPlain.regenerate_source_id = true →
      (okOutput cfgPlain dImgConst dPngNone basePt).source_id =
        Nat.repr (to_hash_bucket_fast basePt.image_encoded (2 ^ 63 - 1))) ∧
    (cfgPlain.regenerate_source_id = false →
      0 < basePt.image_source_id.length →
      (okOutput cfgPlain dImgConst dPngNone basePt).source_id =
        basePt.image_source_id) ∧
    (cfgPlain.regenerate_source_id = false →
      basePt.image_source_id.length = 0 →
      (okOutput cfgPlain dImgConst dPngNone basePt).source_id =
        Nat.repr (to_hash_bucket_fast basePt.image_encoded (2 ^ 63 - 1))) ∧
    to_hash_bucket_fast basePt.image_encoded (2 ^ 63 - 1) < 2 ^ 63 - 1) :=
  ⟨rfl,
   source_id_policy cfgPlain dImgConst dPngNone basePt
     (okOutput cfgPlain dImgConst dPngNone basePt) rfl⟩

/-! ### C4: area policy -/

/-- C4: a non-empty area list is passed through unchanged; with an empty area
list and `n` boxes the output area has length `n` and entry `i` equals
`(xmax[i] - xmin[i]) * (ymax[i] - ymin[i])`, with no clamping. -/
theorem area_policy (cfg : Config) (dI : List Nat → Option Image)
    (dP : List Nat → Option (List (List Rat))) (pt : ParsedTensors)
    (ex : DecodedExample) (n : Nat)
    (hx : pt.bbox_xmin.length = n) (hX : pt.bbox_xmax.length = n)
    (hy : pt.bbox_ymin.length = n) (hY : pt.bbox_ymax.length = n)
    (hok : decode cfg dI dP pt = Except.ok ex) :
    (0 < pt.area.length → ex.groundtruth_area = pt.area) ∧
    (pt.area = [] →
      ex.groundtruth_area.length = n ∧
      ∀ i, i < n →
        ex.groundtruth_area.getD i 0 =
          (pt.bbox_xmax.getD i 0 - pt.bbox_xmin.getD i 0) *
          (pt.bbox_ymax.getD i 0 - pt.bbox_ymin.getD i 0)) := by
  obtain ⟨image, boxes, hI, hB, hrest⟩ := decode_ok_elim cfg dI dP pt ex hok
  have hex : ∃ m, ex = buildExample cfg pt image boxes m := by
    rcases hrest with ⟨_, mt, _, hx'⟩ | ⟨_, hx'⟩
    · exact ⟨some mt, hx'⟩
    · exact ⟨none, hx'⟩
  obtain ⟨m, hex⟩ := hex
  subst hex
  have harea : (buildExample cfg pt image boxes m).groundtruth_area =
      decode_areas pt := rfl
  constructor
  · intro hpos
    rw [harea]
    unfold decode_areas
    rw [if_pos hpos]
  · intro hempty
    rw [harea]
    unfold decode_areas
    rw [if_neg (by simp [hempty])]
    constructor
    · rw [List.length_zipWith, List.length_zipWith, List.length_zipWith]
      omega
    · intro i hi
      rw [getD_zipWith (fun a b => a * b)
            (List.zipWith (fun a b => a - b) pt.bbox_xmax pt.bbox_xmin)
            (List.zipWith (fun a b => a - b) pt.bbox_ymax pt.bbox_ymin)
            i 0 0 0 (by rw [List.length_zipWith]; omega)
            (by rw [List.length_zipWith]; omega),
          getD_zipWith (fun a b => a - b) pt.bbox_xmax pt.bbox_xmin i 0 0 0
            (by omega) (by omega),
          getD_zipWith (fun a b => a - b) pt.bbox_ymax pt.bbox_ymin i 0 0 0
            (by omega) (by omega)]

/-- Witness for C4 at a record with two boxes and an empty area list. -/
theorem area_policy_witness :
    decode cfgPlain dImgConst dPngNone ptTwoBoxes =
      Except.ok (okOutput cfgPlain dImgConst dPngNone ptTwoBoxes) ∧
    (okOutput cfgPlain dImgConst dPngNone ptTwoBoxes).groundtruth_area.length
      = 2 ∧
    (okOutput cfgPlain dImgConst dPngNone ptTwoBoxes).groundtruth_area.getD
        0 0 =
      (ptTwoBoxes.bbox_xmax.getD 0 0 - ptTwoBoxes.bbox_xmin.getD 0 0) *
      (ptTwoBoxes.bbox_ymax.getD 0 0 - ptTwoBoxes.bbox_ymin.getD 0 0) :=
  ⟨rfl,
   ((area_policy cfgPlain dImgConst dPngNone ptTwoBoxes
      (okOutput cfgPlain dImgConst dPngNone ptTwoBoxes) 2
      (by decide) (by decide) (by decide) (by decide) rfl).2 rfl).1,
   ((area_policy cfgPlain dImgConst dPngNone ptTwoBoxes
      (okOutput cfgPlain dImgConst dPngNone ptTwoBoxes) 2
      (by decide) (by decide) (by decide) (by decide) rfl).2 rfl).2 0
     (by decide)⟩

/-! ### C5: which length mismatches are rejected -/

/-- Helper: `decode_masks` can only fail with `imageDecodeError`. -/
theorem decode_masks_error_eq (dP : List Nat → Option (List (List Rat)))
    (h w : Int) (ms : List (List Nat)) (e : DecodeError)
    (he : decode_masks dP h w ms = Except.error e) :
    e = DecodeError.imageDecodeError := by
  unfold decode_masks at he
  by_cases hn : 0 < ms.length
  · rw [if_pos hn] at he
    cases hm : ms.mapM dP with
    | none => rw [hm] at he; exact (Except.error.inj he).symm
    | some l => rw [hm] at he; exact Except.noConfusion he
  · rw [if_neg hn] at he
    exact Except.noConfusion he

/-- C5 counterexample: a record whose area list is non-empty with length 2
while there is only 1 box is not rejected: `decode` succeeds, so no
`validationError` is raised for an area/box length mismatch. -/
theorem length_mismatch_no_validation_cx :
    ptAreaMismatch.bbox_xmin.length = 1 ∧
    ptAreaMismatch.area.length = 2 ∧
    decode cfgPlain dImgConst dPngNone ptAreaMismatch =
      Except.ok (okOutput cfgPlain dImgConst dPngNone ptAreaMismatch) :=
  ⟨rfl, rfl, rfl⟩

/-- C5 (amended): provided the image bytes decode, `decode` fails with
`validationError` exactly when the four box coordinate lists do not all have
the same length; non-empty area or is_crowd lists whose length differs from
the box count are not checked and never cause a `validationError`. -/
theorem validation_error_iff_box_mismatch (cfg : Config)
    (dI : List Nat → Option Image) (dP : List Nat → Option (List (List Rat)))
    (pt : ParsedTensors) (image : Image)
    (hI : dI pt.image_encoded = some image) :
    (decode cfg dI dP pt = Except.error DecodeError.validationError ↔
      ¬ (pt.bbox_xmin.length = pt.bbox_xmax.length ∧
         pt.bbox_xmin.length = pt.bbox_ymin.length ∧
         pt.bbox_xmin.length = pt.bbox_ymax.length)) := by
  unfold decode
  rw [hI]
  by_cases hc : pt.bbox_xmin.length = pt.bbox_xmax.length ∧
      pt.bbox_xmin.length = pt.bbox_ymin.length ∧
      pt.bbox_xmin.length = pt.bbox_ymax.length
  · have hB : decode_boxes pt = some ((List.range pt.bbox_xmin.length).map
        (fun i => [pt.bbox_ymin.getD i 0, pt.bbox_xmin.getD i 0,
                   pt.bbox_ymax.getD i 0, pt.bbox_xmax.getD i 0])) := by
      unfold decode_boxes
      rw [if_pos hc]
    rw [hB]
    constructor
    · intro h
      exfalso
      cases hM : cfg.include_mask with
      | true =>
        rw [hM] at h
        simp only [if_true] at h
        cases hDM : decode_masks dP (resolvedHeight pt image)
            (resolvedWidth pt image) pt.mask with
        | error e =>
          rw [hDM] at h
          rw [decode_masks_error_eq dP _ _ _ e hDM] at h
          exact DecodeError.noConfusion (Except.error.inj h)
        | ok mt =>
          rw [hDM] at h
          exact Except.noConfusion h
      | false =>
        rw [hM] at h
        simp only [Bool.false_eq_true, if_false] at h
        exact Except.noConfusion h
    · intro hneg
      exact absurd hc hneg
  · have hB : decode_boxes pt = none := by
      unfold decode_boxes
      rw [if_neg hc]
    rw [hB]
    simp [hc]

/-- Witness for C5's amended theorem at the mismatched-area record. -/
theorem validation_error_iff_box_mismatch_witness :
    dImgConst ptAreaMismatch.image_encoded = some img480 ∧
    (decode cfgPlain dImgConst dPngNone ptAreaMismatch =
        Except.error DecodeError.validationError ↔
      ¬ (ptAreaMismatch.bbox_xmin.length = ptAreaMismatch.bbox_xmax.length ∧
         ptAreaMismatch.bbox_xmin.length = ptAreaMismatch.bbox_ymin.length ∧
         ptAreaMismatch.bbox_xmin.length =
           ptAreaMismatch.bbox_ymax.length)) :=
  ⟨rfl,
   validation_error_iff_box_mismatch cfgPlain dImgConst dPngNone
     ptAreaMismatch img480 rfl⟩

/-! ### C6: is_crowd policy -/

/-- C6 counterexample: a record with 2 boxes, 3 class labels and an empty
is_crowd list produces an is_crowd output of length 3 (the label count),
not of length 2 (the box count), because the fallback is
`tf.zeros_like(class_label)`. -/
theorem is_crowd_length_cx :
    ptLabelMismatch.bbox_xmin.length = 2 ∧
    ptLabelMismatch.is_crowd = [] ∧
    (decode cfgPlain dImgConst dPngNone ptLabelMismatch).map
      (fun e => e.groundtruth_is_crowd) = Except.ok [false, false, false] ∧
    ¬ (decode cfgPlain dImgConst dPngNone ptLabelMismatch).map
        (fun e => e.groundtruth_is_crowd.length) = Except.ok 2 := by
  refine ⟨rfl, rfl, rfl, by decide⟩

/-- C6 (amended): with an empty is_crowd list the output is an all-false
boolean list whose length is the class-label list's length (which is the box
count only when labels and boxes agree); with a non-empty is_crowd list each
integer is cast elementwise to a boolean (0 to false, nonzero to true). -/
theorem is_crowd_policy (cfg : Config) (dI : List Nat → Option Image)
    (dP : List Nat → Option (List (List Rat))) (pt : ParsedTensors)
    (ex : DecodedExample) (hok : decode cfg dI dP pt = Except.ok ex) :
    (pt.is_crowd = [] →
      ex.groundtruth_is_crowd.length = pt.class_label.length ∧
      ∀ b, b ∈ ex.groundtruth_is_crowd → b = false) ∧
    (0 < pt.is_crowd.length →
      ex.groundtruth_is_crowd = pt.is_crowd.map (fun i => decide (i ≠ 0))) := by
  obtain ⟨image, boxes, hI, hB, hrest⟩ := decode_ok_elim cfg dI dP pt ex hok
  have hex : ∃ m, ex = buildExample cfg pt image boxes m := by
    rcases hrest with ⟨_, mt, _, hx'⟩ | ⟨_, hx'⟩
    · exact ⟨some mt, hx'⟩
    · exact ⟨none, hx'⟩
  obtain ⟨m, hex⟩ := hex
  subst hex
  have hic : (buildExample cfg pt image boxes m).groundtruth_is_crowd =
      resolveIsCrowd pt.is_crowd pt.class_label := rfl
  constructor
  · intro hempty
    rw [hic]
    unfold resolveIsCrowd
    rw [if_neg (by simp [hempty])]
    constructor
    · rw [List.length_map]
    · intro b hb
      obtain ⟨a, _, hab⟩ := List.mem_map.mp hb
      exact hab.symm
  · intro hpos
    rw [hic]
    unfold resolveIsCrowd
    rw [if_pos hpos]
    have hfun : (fun i : Int => i != 0) = fun i : Int => decide (i ≠ 0) := by
      funext i
      by_cases h : i = 0 <;> simp [h]
    rw [hfun]

/-- Witness for C6's amended theorem at a record with 2 boxes, 2 labels and
an empty is_crowd list. -/
theorem is_crowd_policy_witness :
    ptTwoBoxes.is_crowd = [] ∧
    decode cfgPlain dImgConst dPngNone ptTwoBoxes =
      Except.ok (okOutput cfgPlain dImgConst dPngNone ptTwoBoxes) ∧
    (okOutput cfgPlain dImgConst dPngNone
        ptTwoBoxes).groundtruth_is_crowd.length =
      ptTwoBoxes.class_label.length :=
  ⟨rfl, rfl,
   ((is_crowd_policy cfgPlain dImgConst dPngNone ptTwoBoxes
      (okOutput cfgPlain dImgConst dPngNone ptTwoBoxes) rfl).1 rfl).1⟩

/-! ### C7: hash-derived id is a function of the image bytes alone -/

/-- C7: when `regenerate_source_id` is true, the output source id depends
only on the encoded image bytes: two successful decodes of records with
identical bytes (all other fields arbitrary) give identical id strings; in
particular decoding the same record twice gives the same id. -/
theorem source_id_deterministic (cfg : Config)
    (dI : List Nat → Option Image) (dP : List Nat → Option (List (List Rat)))
    (pt1 pt2 : ParsedTensors) (e1 e2 : DecodedExample)
    (hr : cfg.regenerate_source_id = true)
    (h1 : decode cfg dI dP pt1 = Except.ok e1)
    (h2 : decode cfg dI dP pt2 = Except.ok e2)
    (he : pt1.image_encoded = pt2.image_encoded) :
    e1.source_id = e2.source_id := by
  obtain ⟨i1, b1, hI1, hB1, hr1⟩ := decode_ok_elim cfg dI dP pt1 e1 h1
  obtain ⟨i2, b2, hI2, hB2, hr2⟩ := decode_ok_elim cfg dI dP pt2 e2 h2
  have he1 : ∃ m, e1 = buildExample cfg pt1 i1 b1 m := by
    rcases hr1 with ⟨_, mt, _, hx'⟩ | ⟨_, hx'⟩
    · exact ⟨some mt, hx'⟩
    · exact ⟨none, hx'⟩
  have he2 : ∃ m, e2 = buildExample cfg pt2 i2 b2 m := by
    rcases hr2 with ⟨_, mt, _, hx'⟩ | ⟨_, hx'⟩
    · exact ⟨some mt, hx'⟩
    · exact ⟨none, hx'⟩
  obtain ⟨m1, he1⟩ := he1
  obtain ⟨m2, he2⟩ := he2
  subst he1
  subst he2
  simp [buildExample, resolveSourceId, hr, he]

/-- Witness for C7: two records sharing image bytes but differing in stored
id, declared size, boxes, labels and is_crowd get the same regenerated id. -/
theorem source_id_deterministic_witness :
    cfgRegen.regenerate_source_id = true ∧
    decode cfgRegen dImgConst dPngNone basePt =
      Except.ok (okOutput cfgRegen dImgConst dPngNone basePt) ∧
    decode cfgRegen dImgConst dPngNone ptOtherFields =
      Except.ok (okOutput cfgRegen dImgConst dPngNone ptOtherFields) ∧
    basePt.image_encoded = ptOtherFields.image_encoded ∧
    (okOutput cfgRegen dImgConst dPngNone basePt).source_id =
      (okOutput cfgRegen dImgConst dPngNone ptOtherFields).source_id :=
  ⟨rfl, rfl, rfl, rfl,
   source_id_deterministic cfgRegen dImgConst dPngNone basePt ptOtherFields
     (okOutput cfgRegen dImgConst dPngNone basePt)
     (okOutput cfgRegen dImgConst dPngNone ptOtherFields)
     rfl rfl rfl rfl⟩

/-! ### C8: empty mask list gives an empty stack of resolved shape -/

/-- C8: with `include_mask` true and an empty mask list, the output
instance-mask tensor is `tf.zeros([0, height, width])` where height and
width are the already-resolved output dimensions. -/
theorem empty_mask_shape (cfg : Config) (dI : List Nat → Option Image)
    (dP : List Nat → Option (List (List Rat))) (pt : ParsedTensors)
    (ex : DecodedExample)
    (hM : cfg.include_mask = true) (hmask : pt.mask = [])
    (hok : decode cfg dI dP pt = Except.ok ex) :
    ex.groundtruth_instance_masks =
      some (MaskTensor.emptyMasks ex.height ex.width) ∧
    Option.map MaskTensor.shape ex.groundtruth_instance_masks =
      some [0, ex.height, ex.width] := by
  obtain ⟨image, boxes, hI, hB, hrest⟩ := decode_ok_elim cfg dI dP pt ex hok
  rcases hrest with ⟨_, mt, hDM, hex⟩ | ⟨hMf, _⟩
  · subst hex
    unfold decode_masks at hDM
    rw [if_neg (by simp [hmask])] at hDM
    rw [← Except.ok.inj hDM]
    exact ⟨rfl, rfl⟩
  · rw [hM] at hMf
    exact Bool.noConfusion hMf

/-- Witness for C8: declared size 50x60, empty mask list, output shape
`[0, 50, 60]`. -/
theorem empty_mask_shape_witness :
    cfgMask.include_mask = true ∧ ptMask5060.mask = [] ∧
    decode cfgMask dImgConst dPngNone ptMask5060 =
      Except.ok (okOutput cfgMask dImgConst dPngNone ptMask5060) ∧
    (okOutput cfgMask dImgConst dPngNone ptMask5060).height = 50 ∧
    (okOutput cfgMask dImgConst dPngNone ptMask5060).width = 60 ∧
    Option.map MaskTensor.shape
        (okOutput cfgMask dImgConst dPngNone
          ptMask5060).groundtruth_instance_masks =
      some [0, (okOutput cfgMask dImgConst dPngNone ptMask5060).height,
            (okOutput cfgMask dImgConst dPngNone ptMask5060).width] :=
  ⟨rfl, rfl, rfl, rfl, rfl,
   (empty_mask_shape cfgMask dImgConst dPngNone ptMask5060
     (okOutput cfgMask dImgConst dPngNone ptMask5060) rfl rfl rfl).2⟩

/-! ### C9: optional fields present iff their flags are set -/

/-- C9: for every configuration and successfully decoded record, the
pseudo-score field is present iff `activate_pseudo_score`, and the two
mask fields are present iff `include_mask`; the assembly itself
(`buildExample`) is a total function and cannot fail. -/
theorem optional_field_presence (cfg : Config) (dI : List Nat → Option Image)
    (dP : List Nat → Option (List (List Rat))) (pt : ParsedTensors)
    (ex : DecodedExample) (hok : decode cfg dI dP pt = Except.ok ex) :
    ex.groundtruth_pseudo_score.isSome = cfg.activate_pseudo_score ∧
    ex.groundtruth_instance_masks.isSome = cfg.include_mask ∧
    ex.groundtruth_instance_masks_png.isSome = cfg.include_mask := by
  obtain ⟨image, boxes, hI, hB, hrest⟩ := decode_ok_elim cfg dI dP pt ex hok
  rcases hrest with ⟨hM, mt, hDM, hex⟩ | ⟨hM, hex⟩ <;> subst hex <;>
    cases hp : cfg.activate_pseudo_score <;>
      simp [buildExample, hM, hp]

/-- Witness for C9 with `activate_pseudo_score = true`. -/
theorem optional_field_presence_witness :
    decode cfgPseudo dImgConst dPngNone basePt =
      Except.ok (okOutput cfgPseudo dImgConst dPngNone basePt) ∧
    (okOutput cfgPseudo dImgConst dPngNone
        basePt).groundtruth_pseudo_score.isSome =
      cfgPseudo.activate_pseudo_score ∧
    (okOutput cfgPseudo dImgConst dPngNone
        basePt).groundtruth_instance_masks.isSome = cfgPseudo.include_mask ∧
    (okOutput cfgPseudo dImgConst dPngNone
        basePt).groundtruth_instance_masks_png.isSome =
      cfgPseudo.include_mask :=
  ⟨rfl,
   optional_field_presence cfgPseudo dImgConst dPngNone basePt
     (okOutput cfgPseudo dImgConst dPngNone basePt) rfl⟩

/-! ### C10: pseudo-score pass-through -/

/-- C10: when `activate_pseudo_score` is true the output pseudo-score list is
the record's densified pseudo-score list verbatim, for every record: no
transformation and no length check against box or class counts. -/
theorem pseudo_score_passthrough (cfg : Config)
    (dI : List Nat → Option Image) (dP : List Nat → Option (List (List Rat)))
    (pt : ParsedTensors) (ex : DecodedExample)
    (hp : cfg.activate_pseudo_score = true)
    (hok : decode cfg dI dP pt = Except.ok ex) :
    ex.groundtruth_pseudo_score = some pt.pseudo_score := by
  obtain ⟨image, boxes, hI, hB, hrest⟩ := decode_ok_elim cfg dI dP pt ex hok
  have hex : ∃ m, ex = buildExample cfg pt image boxes m := by
    rcases hrest with ⟨_, mt, _, hx'⟩ | ⟨_, hx'⟩
    · exact ⟨some mt, hx'⟩
    · exact ⟨none, hx'⟩
  obtain ⟨m, hex⟩ := hex
  subst hex
  simp [buildExample, hp]

/-- Witness for C10 at a record whose pseudo-score list has length 5 while
there are no boxes and no class labels. -/
theorem pseudo_score_passthrough_witness :
    cfgPseudo.activate_pseudo_score = true ∧
    ptPseudo5.pseudo_score.length = 5 ∧
    ptPseudo5.bbox_xmin.length = 0 ∧
    ptPseudo5.class_label.length = 0 ∧
    decode cfgPseudo dImgConst dPngNone ptPseudo5 =
      Except.ok (okOutput cfgPseudo dImgConst dPngNone ptPseudo5) ∧
    (okOutput cfgPseudo dImgConst dPngNone
        ptPseudo5).groundtruth_pseudo_score = some ptPseudo5.pseudo_score :=
  ⟨rfl, rfl, rfl, rfl, rfl,
   pseudo_score_passthrough cfgPseudo dImgConst dPngNone ptPseudo5
     (okOutput cfgPseudo dImgConst dPngNone ptPseudo5) rfl rfl⟩

end TfExample
